import Mathlib

/-!
Shallow embedding of the declarative-memory search plugin (`main.py`).

The plugin wraps a host-provided vector-store collection and embedder.  Its
own logic — parameter defaulting and validation, multi-strategy search
dispatch (`_try_search_method`), post-retrieval metadata filtering, result
normalization and error wrapping (`_perform_memory_search`) — is embedded
here as pure Lean functions.  Collaborators (the collection's duck-typed
methods and the embedder) are modelled as function-valued fields returning
`Except PyErr …`; an absent capability is `none`.  Every collaborator
invocation is additionally recorded in a trace of `CallEvent`s so that
"no collaborator call is made" claims are statable.
-/

namespace MemRetriever

/-- Python scalar values appearing in metadata mappings and filter mappings. -/
inductive Value where
  | vStr : String → Value
  | vInt : Int → Value
  deriving DecidableEq, Repr

/-- Python `str()` of a scalar value. -/
def Value.toStr : Value → String
  | .vStr s => s
  | .vInt n => toString n

/-- A metadata mapping (Python `dict` of string keys), as an association list. -/
abbrev Metadata := List (String × Value)

/-- Python `len(s)`: the number of code points. -/
def pyLen (s : String) : Nat := s.data.length

/-- Python `s[:n]`: the first `n` code points. -/
def pyTake (s : String) (n : Nat) : String := String.mk (s.data.take n)

/-- Python `s[n:]`: all but the first `n` code points. -/
def pyDrop (s : String) (n : Nat) : String := String.mk (s.data.drop n)

/-- Python `s.startswith(p)`. -/
def pyStartsWith (s p : String) : Bool := p.data.isPrefixOf s.data

/-- Python `s.endswith(p)`. -/
def pyEndsWith (s p : String) : Bool := p.data.isSuffixOf s.data

/-- Python `sub in s` (substring containment). -/
def pyContains (s sub : String) : Bool :=
  (List.range (s.data.length + 1)).any (fun i => sub.data.isPrefixOf (s.data.drop i))

/-- Python dictionary lookup (`d[k]` / `d.get(k)`): first entry with the key. -/
def metaGet (m : Metadata) (k : String) : Option Value :=
  (m.find? (fun p => p.1 == k)).map (fun p => p.2)

/-- The duck-typed view of a document object: exactly the attributes the code
reads via `getattr`.  `page_content` / `content` are `none` when the attribute
is absent (or `None`); `metadata` is `[]` when the attribute is absent (the
code defaults it to `{}`); `strForm` is the object's `str()` form. -/
structure Doc where
  page_content : Option String := none
  content : Option String := none
  metadata : Metadata := []
  strForm : String := ""
  deriving DecidableEq, Repr

/-- The duck-typed view of one raw search result, covering the three shape
probes the code performs: `isinstance(x, tuple) and len(x) >= 2` (with
`elem0` / `elem1` the first two tuple elements, viewed as document and score),
`hasattr(x, 'document') and hasattr(x, 'score')` (with `documentAttr` /
`scoreAttr` those attributes), and the bare-document view `selfDoc` of the
value itself.  Fields not consulted for a given shape are unconstrained. -/
structure RawResult where
  isTuple : Bool := false
  tupleLen : Nat := 0
  elem0 : Doc := {}
  elem1 : Float := 0.0
  hasDocumentAttr : Bool := false
  hasScoreAttr : Bool := false
  documentAttr : Doc := {}
  scoreAttr : Float := 0.0
  selfDoc : Doc := {}

/-- Plugin settings (`DeclarativeMemorySettings`), with the field defaults of
the source.  The code reads them through `settings.get(key, default)`. -/
structure DeclarativeMemorySettings where
  default_k : Nat := 5
  default_threshold : Float := 0.7
  max_k : Nat := 20
  enable_metadata_filter : Bool := true
  enable_content_preview : Bool := true
  preview_length : Nat := 200
  use_search_method : Bool := true

/-- Search request (`MemorySearchRequest`). -/
structure MemorySearchRequest where
  query : String
  k : Option Nat := none
  threshold : Option Float := none
  metadata_filter : Option Metadata := none
  include_scores : Bool := true
  include_metadata : Bool := true

/-- One normalized result (`MemoryResult`). -/
structure MemoryResult where
  content : String
  content_preview : Option String
  score : Option Float
  metadata : Option Metadata
  document_id : Option Value

/-- Python truthiness of `request.metadata_filter`: a present, non-empty dict. -/
def hasFilter (req : MemorySearchRequest) : Bool :=
  match req.metadata_filter with
  | some f => !f.isEmpty
  | none => false

/-- `needs_post_filtering` (main.py lines 309-313). -/
def needsPostFiltering (req : MemorySearchRequest) (settings : DeclarativeMemorySettings)
    (tag : String) : Bool :=
  hasFilter req && settings.enable_metadata_filter && !(tag == "search_with_filter")

/-- One filter entry check, the body of the loop at main.py lines 337-349:
an absent key fails; a string filter value beginning with `*` is a suffix
pattern over the stringified metadata value; anything else is exact equality. -/
def entryPasses (md : Metadata) (k : String) (v : Value) : Bool :=
  match metaGet md k with
  | none => false
  | some mv =>
    match v with
    | .vStr s =>
      if pyStartsWith s "*" then pyEndsWith (Value.toStr mv) (pyDrop s 1)
      else decide (mv = v)
    | _ => decide (mv = v)

/-- `filter_passed` for a whole filter mapping: every entry must pass. -/
def filterPassed (md : Metadata) (flt : Metadata) : Bool :=
  flt.all (fun p => entryPasses md p.1 p.2)

/-- Python `a or b` on an optional string `a`: `b` when `a` is absent or empty
(Python string truthiness). -/
def pyOrStr (a : Option String) (b : String) : String :=
  match a with
  | some s => if s = "" then b else s
  | none => b

/-- Content extraction (main.py line 355):
`getattr(doc, 'page_content', None) or getattr(doc, 'content', None) or str(doc)`. -/
def extractContent (d : Doc) : String :=
  pyOrStr d.page_content (pyOrStr d.content d.strForm)

/-- Content preview (main.py lines 358-363): when enabled, truncate to
`preview_length` characters and append `"..."` if the content is longer. -/
def makePreview (settings : DeclarativeMemorySettings) (content : String) : Option String :=
  if settings.enable_content_preview then
    some (if settings.preview_length < pyLen content then
            pyTake content settings.preview_length ++ "..."
          else content)
  else none

/-- Shape detection (main.py lines 319-329), in source order: pair-like tuple
of length ≥ 2, then object with `document` and `score` attributes, then the
bare value as document with no score. -/
def normalizeShape (r : RawResult) : Doc × Option Float :=
  if r.isTuple ∧ 2 ≤ r.tupleLen then (r.elem0, some r.elem1)
  else if r.hasDocumentAttr ∧ r.hasScoreAttr then (r.documentAttr, some r.scoreAttr)
  else (r.selfDoc, none)

/-- Per-item processing (main.py lines 316-377): shape detection, optional
post-retrieval metadata filtering (`none` = item dropped), content extraction,
preview, metadata / score / document-id assembly. -/
def processItem (settings : DeclarativeMemorySettings) (req : MemorySearchRequest)
    (npf : Bool) (r : RawResult) : Option MemoryResult :=
  let ds := normalizeShape r
  if npf && !(filterPassed ds.1.metadata (req.metadata_filter.getD [])) then none
  else
    let content := extractContent ds.1
    let metadata : Option Metadata := if req.include_metadata then some ds.1.metadata else none
    some { content := content
           content_preview := makePreview settings content
           score := if req.include_scores then ds.2 else none
           metadata := metadata
           document_id :=
             match metadata with
             | some m => if m.isEmpty then none else metaGet m "id"
             | none => none }

/-- A raised Python exception from a collaborator call.  `isTypeError` marks
`TypeError` (the class the prober distinguishes at the filtered `search`
attempt); `msg` is its `str()` form.  The pipeline embedding treats
collaborator failures as exceptions that are not `ValueError`s; the outer
handlers' full class dispatch — which also covers a collaborator-raised
`ValueError` — is modelled separately by `PyExc` and `handleSearchError`. -/
structure PyErr where
  isTypeError : Bool := false
  msg : String := ""
  deriving DecidableEq, Repr

/-- The collection's `search` method: callable with or without the `filter`
keyword argument.  A `search` implementation that does not accept the keyword
raises a `TypeError` from the filtered call. -/
structure SearchCap where
  callFiltered : String → Nat → Float → Metadata → Except PyErr (List RawResult)
  callUnfiltered : String → Nat → Float → Except PyErr (List RawResult)

/-- The duck-typed collection handle: each optional high-level capability is
`none` when `hasattr` fails, and `recall_memories_from_embedding` is always
present (the guaranteed low-level capability). -/
structure Collection where
  search : Option SearchCap := none
  query : Option (String → Nat → Float → Except PyErr (List RawResult)) := none
  similarity_search : Option (String → Nat → Except PyErr (List RawResult)) := none
  recall_memories_from_embedding : List Float → Nat → Float → Except PyErr (List RawResult)

/-- The embedder collaborator: `embed_query` on a string. -/
abbrev Embedder := String → Except PyErr (List Float)

/-- Instrumentation: one event per collaborator invocation, tagged by call
site.  `embedFallbackCall` is the `embed_query(request.query)` call of the
low-level fallback (line 287); `embedDiagnosticCall` is the throwaway
`embed_query("test")` call used to report embedding dimensions (line 397). -/
inductive CallEvent where
  | searchFilteredCall
  | searchUnfilteredCall
  | queryCall
  | similaritySearchCall
  | embedFallbackCall
  | embedDiagnosticCall
  | recallCall
  deriving DecidableEq, Repr

/-- Method 3 of `_try_search_method` (main.py lines 230-241):
`similarity_search(query, k=k)`, else fall out with `no_high_level_method`. -/
def trySimMethod (c : Collection) (req : MemorySearchRequest) (k : Nat) :
    (Option (List RawResult) × String) × List CallEvent :=
  match c.similarity_search with
  | some f =>
    match f req.query k with
    | .ok rs => ((some rs, "similarity_search"), [.similaritySearchCall])
    | .error _ => ((none, "no_high_level_method"), [.similaritySearchCall])
  | none => ((none, "no_high_level_method"), [])

/-- Method 2 of `_try_search_method` (main.py lines 217-227):
`query(query, k=k, threshold=threshold)`, else fall through to Method 3. -/
def tryQueryMethod (c : Collection) (req : MemorySearchRequest) (k : Nat) (threshold : Float) :
    (Option (List RawResult) × String) × List CallEvent :=
  match c.query with
  | some f =>
    match f req.query k threshold with
    | .ok rs => ((some rs, "query"), [.queryCall])
    | .error _ =>
      let r := trySimMethod c req k
      (r.1, .queryCall :: r.2)
  | none => trySimMethod c req k

/-- `_try_search_method` (main.py lines 178-241).  Method 1: `search`,
attempted with the native `filter` argument when the request has a truthy
metadata filter; a `TypeError` there means the argument is unsupported and the
unfiltered call is attempted; any other failure falls through to Method 2. -/
def try_search_method (c : Collection) (req : MemorySearchRequest) (k : Nat) (threshold : Float) :
    (Option (List RawResult) × String) × List CallEvent :=
  match c.search with
  | some s =>
    if hasFilter req then
      match s.callFiltered req.query k threshold (req.metadata_filter.getD []) with
      | .ok rs => ((some rs, "search_with_filter"), [.searchFilteredCall])
      | .error e =>
        if e.isTypeError then
          match s.callUnfiltered req.query k threshold with
          | .ok rs => ((some rs, "search"), [.searchFilteredCall, .searchUnfilteredCall])
          | .error _ =>
            let r := tryQueryMethod c req k threshold
            (r.1, .searchFilteredCall :: .searchUnfilteredCall :: r.2)
        else
          let r := tryQueryMethod c req k threshold
          (r.1, .searchFilteredCall :: r.2)
    else
      match s.callUnfiltered req.query k threshold with
      | .ok rs => ((some rs, "search"), [.searchUnfilteredCall])
      | .error _ =>
        let r := tryQueryMethod c req k threshold
        (r.1, .searchUnfilteredCall :: r.2)
  | none => tryQueryMethod c req k threshold

/-- An exception escaping the body of `_perform_memory_search`: the `ValueError`
of the k-validation, or a collaborator failure. -/
inductive InnerErr where
  | valueError : String → InnerErr
  | pyError : String → InnerErr
  deriving DecidableEq, Repr

/-- The error the caller sees (main.py lines 425-433): a `ValueError` re-raised
unchanged, or any other exception wrapped into a generic message. -/
inductive SearchError where
  | validation : String → SearchError
  | generic : String → SearchError
  deriving DecidableEq, Repr

/-- An exception reaching the handlers of `_perform_memory_search` (main.py
lines 425-433), carrying the only class distinction those handlers make:
whether it is a `ValueError`.  The k-validation raise (line 269) is a
`ValueError`; a collaborator call may raise an exception of any class,
including `ValueError`. -/
structure PyExc where
  isValueError : Bool := false
  msg : String := ""
  deriving DecidableEq, Repr

/-- The exception handlers at main.py lines 425-433 as a function of the
escaping exception: `except ValueError as e: raise e` re-raises a `ValueError`
— whatever raised it — with its message unchanged, and `except Exception as e`
re-raises anything else as `Exception("Error during search: " + str(e))`. -/
def handleSearchError (e : PyExc) : SearchError :=
  if e.isValueError then .validation e.msg
  else .generic ("Error during search: " ++ e.msg)

/-- Search response (`MemorySearchResponse`), restricted to the fields the
embedding models (wall-clock timing and the echoed parameter map are elided). -/
structure MemorySearchResponse where
  query : String
  results : List MemoryResult
  total_results : Nat
  search_method : String
  embedding_dimensions : Option Nat

/-- The processing loop at main.py lines 315-381: normalize every raw result,
dropping those rejected by post-filtering. -/
def buildResults (settings : DeclarativeMemorySettings) (req : MemorySearchRequest)
    (tag : String) (rs : List RawResult) : List MemoryResult :=
  rs.filterMap (processItem settings req (needsPostFiltering req settings tag))

/-- Response assembly (main.py lines 403-421). -/
def buildResponse (settings : DeclarativeMemorySettings) (req : MemorySearchRequest)
    (tag : String) (rs : List RawResult) (dims : Option Nat) : MemorySearchResponse :=
  let results := buildResults settings req tag rs
  { query := req.query
    results := results
    total_results := results.length
    search_method := tag
    embedding_dimensions := dims }

/-- The body of the `try` block of `_perform_memory_search` (main.py lines
258-423): defaulting, k-validation, strategy probing, the low-level embedding
fallback when the probe produced no result, result processing and response
assembly, paired with the trace of collaborator calls. -/
def perform_memory_search_inner (settings : DeclarativeMemorySettings)
    (req : MemorySearchRequest) (c : Collection) (embedder : Embedder) :
    Except InnerErr MemorySearchResponse × List CallEvent :=
  let k := req.k.getD settings.default_k
  let threshold := req.threshold.getD settings.default_threshold
  if settings.max_k < k then
    (.error (.valueError ("Requested number of results (" ++ toString k ++
      ") exceeds maximum allowed (" ++ toString settings.max_k ++ ")")), [])
  else
    let probed := if settings.use_search_method
      then try_search_method c req k threshold
      else ((none, "unknown"), [])
    match probed with
    | ((some rs, tag), tr) =>
      match embedder "test" with
      | .ok sample =>
        (.ok (buildResponse settings req tag rs (some sample.length)),
         tr ++ [.embedDiagnosticCall])
      | .error _ =>
        (.ok (buildResponse settings req tag rs none), tr ++ [.embedDiagnosticCall])
    | ((none, _), tr) =>
      match embedder req.query with
      | .error e => (.error (.pyError e.msg), tr ++ [.embedFallbackCall])
      | .ok emb =>
        match c.recall_memories_from_embedding emb k threshold with
        | .error e => (.error (.pyError e.msg), tr ++ [.embedFallbackCall, .recallCall])
        | .ok rs =>
          (.ok (buildResponse settings req "recall_memories_from_embedding" rs (some emb.length)),
           tr ++ [.embedFallbackCall, .recallCall])

/-- `_perform_memory_search` with its exception handlers (main.py lines
425-433): a `ValueError` is re-raised with its message unchanged; any other
exception is re-raised as `Exception("Error during search: " + str(e))`. -/
def perform_memory_search (settings : DeclarativeMemorySettings)
    (req : MemorySearchRequest) (c : Collection) (embedder : Embedder) :
    Except SearchError MemorySearchResponse × List CallEvent :=
  let r := perform_memory_search_inner settings req c embedder
  (match r.1 with
   | .ok resp => .ok resp
   | .error (.valueError m) => .error (.validation m)
   | .error (.pyError m) => .error (.generic ("Error during search: " ++ m)),
   r.2)

/-- A filter value that the code treats as a suffix pattern: a string
beginning with `*`. -/
def IsPattern (v : Value) : Prop :=
  ∃ s, v = Value.vStr s ∧ pyStartsWith s "*" = true

/-- The spec's wording of one metadata-filter entry: the key must be present
in the metadata; a `*`-leading string value is a suffix pattern over the
stringified metadata value; any other value must be exactly equal. -/
def SpecEntryPasses (md : Metadata) (k : String) (v : Value) : Prop :=
  ∃ mv, metaGet md k = some mv ∧
    ((∃ s, v = Value.vStr s ∧ pyStartsWith s "*" = true ∧
        pyEndsWith (Value.toStr mv) (pyDrop s 1) = true) ∨
     (¬ IsPattern v ∧ mv = v))

/-- Fixture: a document whose `page_content` attribute is present but empty,
while `content` is present and non-empty. -/
def emptyPageContentDoc : Doc :=
  { page_content := some "", content := some "hello", strForm := "strdoc" }

/-- Fixture: a pair-shaped raw result (tuple of length 2). -/
def tupleRaw : RawResult :=
  { isTuple := true, tupleLen := 2, elem0 := { strForm := "d0" }, elem1 := 0.5 }

/-- Fixture: a collection exposing only the guaranteed low-level capability,
returning a fixed result list. -/
def recallOnlyCollection : Collection :=
  { recall_memories_from_embedding := fun _ _ _ => .ok [{ selfDoc := { strForm := "m" } }] }

/-- Fixture: a collection whose low-level recall capability raises. -/
def failingCollection : Collection :=
  { recall_memories_from_embedding := fun _ _ _ => .error { msg := "recall boom" } }

/-- Fixture: a collection exposing an unfiltered-only `search` that succeeds
with an empty result list. -/
def emptySearchCollection : Collection :=
  { search := some
      { callFiltered := fun _ _ _ _ => .error { isTypeError := true, msg := "no filter kwarg" }
        callUnfiltered := fun _ _ _ => .ok [] }
    recall_memories_from_embedding := fun _ _ _ => .ok [] }

/-- Fixture: a collection whose `search` accepts the native filter argument. -/
def filteredSearchCollection : Collection :=
  { search := some
      { callFiltered := fun _ _ _ _ => .ok [{ selfDoc := { strForm := "f" } }]
        callUnfiltered := fun _ _ _ => .ok [] }
    recall_memories_from_embedding := fun _ _ _ => .ok [] }

/-- Fixture: an embedder that always succeeds with a 3-dimensional vector. -/
def okEmbedder : Embedder := fun _ => .ok [0.0, 0.0, 0.0]

/-- Fixture: an embedder that always raises. -/
def failingEmbedder : Embedder := fun _ => .error { msg := "embfail" }

theorem entryPasses_iff (md : Metadata) (k : String) (v : Value) :
    entryPasses md k v = true ↔ SpecEntryPasses md k v := by
  unfold entryPasses SpecEntryPasses
  cases hm : metaGet md k with
  | none => simp
  | some mv =>
    cases v with
    | vStr s =>
      by_cases hp : pyStartsWith s "*" = true
      · simp only [hp, if_true]
        constructor
        · intro he
          exact ⟨mv, rfl, Or.inl ⟨s, rfl, hp, he⟩⟩
        · rintro ⟨mv', hmv', (⟨s', hs', _, he'⟩ | ⟨hnp, _⟩)⟩
          · cases hmv'
            cases hs'
            exact he'
          · exact absurd ⟨s, rfl, hp⟩ hnp
      · simp only [if_neg hp, decide_eq_true_eq]
        constructor
        · intro he
          refine ⟨mv, rfl, Or.inr ⟨?_, he⟩⟩
          rintro ⟨s', hs', hp'⟩
          cases hs'
          exact hp hp'
        · rintro ⟨mv', hmv', (⟨s', hs', hp', _⟩ | ⟨_, hmv⟩)⟩
          · cases hs'
            exact absurd hp' hp
          · cases hmv'
            exact hmv
    | vInt n =>
      simp only [decide_eq_true_eq]
      constructor
      · intro he
        refine ⟨mv, rfl, Or.inr ⟨?_, he⟩⟩
        rintro ⟨s', hs', _⟩
        cases hs'
      · rintro ⟨mv', hmv', (⟨s', hs', _, _⟩ | ⟨_, hmv⟩)⟩
        · cases hs'
        · cases hmv'
          exact hmv

/-- **C3.** The post-retrieval metadata filter passes a document exactly when
every filter entry passes, where an entry with an absent key fails, a filter
value that is a `*`-leading string passes exactly when the stringified
metadata value ends with the remainder of the pattern, and any other entry
passes exactly when the metadata value equals the filter value; in particular
metadata `{"source": "doc.pdf"}` passes filter `{"source": "*.pdf"}`, fails
`{"source": "report.docx"}`, and fails `{"missing_key": "x"}`. -/
theorem metadata_filter_semantics :
    (∀ (md flt : Metadata), flt ≠ [] →
      (filterPassed md flt = true ↔ ∀ p ∈ flt, SpecEntryPasses md p.1 p.2)) ∧
    filterPassed [("source", Value.vStr "doc.pdf")] [("source", Value.vStr "*.pdf")] = true ∧
    filterPassed [("source", Value.vStr "doc.pdf")] [("source", Value.vStr "report.docx")] = false ∧
    filterPassed [("source", Value.vStr "doc.pdf")] [("missing_key", Value.vStr "x")] = false := by
  refine ⟨fun md flt _ => ?_, by decide, by decide, by decide⟩
  unfold filterPassed
  rw [List.all_eq_true]
  constructor
  · intro h p hp
    exact (entryPasses_iff md p.1 p.2).mp (h p hp)
  · intro h p hp
    exact (entryPasses_iff md p.1 p.2).mpr (h p hp)

theorem metadata_filter_semantics_witness :
    SpecEntryPasses [("source", Value.vStr "doc.pdf")] "source" (Value.vStr "*.pdf") :=
  (metadata_filter_semantics.1 [("source", Value.vStr "doc.pdf")]
      [("source", Value.vStr "*.pdf")] (by decide)).mp (by decide)
    ("source", Value.vStr "*.pdf") (by decide)

/-- **C4.** Post-retrieval filtering is applied iff the request has a truthy
metadata filter, metadata filtering is enabled in settings, and the strategy
tag is not `search_with_filter`; when the condition fails every document
passes the filter stage (no item is dropped there). -/
theorem post_filter_condition (req : MemorySearchRequest)
    (settings : DeclarativeMemorySettings) (tag : String) :
    (needsPostFiltering req settings tag = true ↔
      (hasFilter req = true ∧ settings.enable_metadata_filter = true ∧
        tag ≠ "search_with_filter")) ∧
    (needsPostFiltering req settings tag = false →
      ∀ r, (processItem settings req (needsPostFiltering req settings tag) r).isSome = true) := by
  constructor
  · unfold needsPostFiltering
    simp [Bool.and_eq_true, Bool.not_eq_true', ne_eq, and_assoc]
  · intro h r
    rw [h]
    simp [processItem]

theorem post_filter_condition_witness :
    (processItem {} { query := "q" }
      (needsPostFiltering { query := "q" } {} "search_with_filter") {}).isSome = true :=
  (post_filter_condition { query := "q" } {} "search_with_filter").2 (by decide) {}

/-- **C9.** Normalization is deterministic: the embedding of the per-item
normalizer is a pure function, so two invocations on the same raw result (with
the same request and settings) yield identical `MemoryResult` values. -/
theorem normalizer_deterministic (settings : DeclarativeMemorySettings)
    (req : MemorySearchRequest) (npf : Bool) (r : RawResult) :
    processItem settings req npf r = processItem settings req npf r := rfl

/-- **C6.** Shape detection order: a tuple of length ≥ 2 is unpacked as
(document, score); otherwise an object with both `document` and `score`
attributes yields those; otherwise the value itself is the document and the
score is absent. -/
theorem shape_detection_order (r : RawResult) :
    (r.isTuple = true → 2 ≤ r.tupleLen →
      normalizeShape r = (r.elem0, some r.elem1)) ∧
    (¬(r.isTuple = true ∧ 2 ≤ r.tupleLen) →
      r.hasDocumentAttr = true → r.hasScoreAttr = true →
      normalizeShape r = (r.documentAttr, some r.scoreAttr)) ∧
    (¬(r.isTuple = true ∧ 2 ≤ r.tupleLen) →
      ¬(r.hasDocumentAttr = true ∧ r.hasScoreAttr = true) →
      normalizeShape r = (r.selfDoc, none)) := by
  unfold normalizeShape
  refine ⟨fun h1 h2 => ?_, fun h1 h2 h3 => ?_, fun h1 h2 => ?_⟩
  · rw [if_pos ⟨h1, h2⟩]
  · rw [if_neg h1, if_pos ⟨h2, h3⟩]
  · rw [if_neg h1, if_neg h2]

theorem shape_detection_order_witness :
    normalizeShape tupleRaw = (tupleRaw.elem0, some tupleRaw.elem1) :=
  (shape_detection_order tupleRaw).1 rfl (by decide)

/-- **C8 counterexample.** The claim says a present `page_content` attribute
is always used; the code uses Python truthiness (`or`), so a present but
*empty* `page_content` falls through to the `content` attribute. -/
theorem content_extraction_counterexample :
    emptyPageContentDoc.page_content = some "" ∧
    extractContent emptyPageContentDoc = "hello" ∧
    extractContent emptyPageContentDoc ≠ "" := by decide

/-- **C8 amended.** The content of a normalized result is the document's
`page_content` when present and non-empty, else its `content` when present and
non-empty, else its string form; a present non-empty `page_content` is
preferred over a present `content`. -/
theorem content_extraction_amended (d : Doc) :
    (∀ s, d.page_content = some s → s ≠ "" → extractContent d = s) ∧
    ((d.page_content = none ∨ d.page_content = some "") →
      ∀ s, d.content = some s → s ≠ "" → extractContent d = s) ∧
    ((d.page_content = none ∨ d.page_content = some "") →
      (d.content = none ∨ d.content = some "") →
      extractContent d = d.strForm) := by
  unfold extractContent pyOrStr
  refine ⟨?_, ?_, ?_⟩
  · intro s hs hne
    rw [hs]
    simp [hne]
  · rintro (h | h) s hs hne <;> rw [h, hs] <;> simp [hne]
  · rintro (h | h) (h' | h') <;> rw [h, h'] <;> simp

theorem content_extraction_amended_witness :
    extractContent { page_content := some "pc", content := some "c", strForm := "s" } = "pc" :=
  (content_extraction_amended
    { page_content := some "pc", content := some "c", strForm := "s" }).1 "pc" rfl (by decide)

theorem pyLen_pyTake (s : String) (n : Nat) (h : n ≤ pyLen s) :
    pyLen (pyTake s n) = n := by
  show (s.data.take n).length = n
  rw [List.length_take]
  exact Nat.min_eq_left h

/-- **C7.** When content preview is enabled: content longer than
`preview_length` yields the first `preview_length` characters followed by the
ellipsis marker (a preview of exactly `preview_length` characters plus the
marker), and content of at most `preview_length` characters is returned whole
with no marker; when disabled, the preview is omitted.  Every normalized
result's preview is produced this way from its content. -/
theorem content_preview_spec (settings : DeclarativeMemorySettings) (content : String) :
    (settings.enable_content_preview = true →
      (settings.preview_length < pyLen content →
        makePreview settings content =
          some (pyTake content settings.preview_length ++ "...") ∧
        pyLen (pyTake content settings.preview_length) = settings.preview_length) ∧
      (pyLen content ≤ settings.preview_length →
        makePreview settings content = some content)) ∧
    (settings.enable_content_preview = false → makePreview settings content = none) ∧
    (∀ (req : MemorySearchRequest) (npf : Bool) (r : RawResult) (res : MemoryResult),
      processItem settings req npf r = some res →
      res.content_preview = makePreview settings res.content) := by
  refine ⟨fun he => ⟨fun hlt => ?_, fun hle => ?_⟩, fun he => ?_, ?_⟩
  · unfold makePreview
    rw [if_pos he, if_pos hlt]
    exact ⟨rfl, pyLen_pyTake content settings.preview_length (Nat.le_of_lt hlt)⟩
  · unfold makePreview
    rw [if_pos he, if_neg (Nat.not_lt.mpr hle)]
  · unfold makePreview
    rw [if_neg (by simp [he])]
  · intro req npf r res h
    simp only [processItem] at h
    split at h
    · cases h
    · cases h
      rfl

set_option maxRecDepth 4000 in
theorem content_preview_spec_witness :
    makePreview {} (String.mk (List.replicate 250 'a')) =
      some (pyTake (String.mk (List.replicate 250 'a')) 200 ++ "...") ∧
    pyLen (pyTake (String.mk (List.replicate 250 'a')) 200) = 200 :=
  ((content_preview_spec {} (String.mk (List.replicate 250 'a'))).1 rfl).1 (by decide)

theorem inner_no_valueError (settings : DeclarativeMemorySettings)
    (req : MemorySearchRequest) (c : Collection) (embedder : Embedder)
    (h : req.k.getD settings.default_k ≤ settings.max_k) (m : String) :
    (perform_memory_search_inner settings req c embedder).1 ≠
      Except.error (InnerErr.valueError m) := by
  simp only [perform_memory_search_inner]
  rw [if_neg (Nat.not_lt.mpr h)]
  split
  · split <;> simp
  · split
    · simp
    · split <;> simp

/-- **C1.** When the effective `k` (the request's `k`, or `default_k` when
absent) exceeds `max_k`, the search fails with the specific validation error
before any collaborator call (the call trace is empty); when the effective `k`
is at most `max_k`, no validation error is raised. -/
theorem k_validation_fail_fast (settings : DeclarativeMemorySettings)
    (req : MemorySearchRequest) (c : Collection) (embedder : Embedder) :
    (settings.max_k < req.k.getD settings.default_k →
      perform_memory_search settings req c embedder =
        (.error (.validation ("Requested number of results (" ++
            toString (req.k.getD settings.default_k) ++
            ") exceeds maximum allowed (" ++ toString settings.max_k ++ ")")), [])) ∧
    (req.k.getD settings.default_k ≤ settings.max_k →
      ∀ m, (perform_memory_search settings req c embedder).1 ≠
        Except.error (SearchError.validation m)) := by
  constructor
  · intro h
    simp [perform_memory_search, perform_memory_search_inner, h]
  · intro h m
    have hin := inner_no_valueError settings req c embedder h
    cases hi : (perform_memory_search_inner settings req c embedder).1 with
    | ok resp => simp [perform_memory_search, hi]
    | error e =>
      cases e with
      | valueError m' => exact absurd hi (hin m')
      | pyError m' => simp [perform_memory_search, hi]

theorem k_validation_fail_fast_witness :
    perform_memory_search {} { query := "q", k := some 25 } recallOnlyCollection okEmbedder =
      (.error (.validation "Requested number of results (25) exceeds maximum allowed (20)"),
       []) :=
  (k_validation_fail_fast {} { query := "q", k := some 25 }
    recallOnlyCollection okEmbedder).1 (by decide)

theorem list_isPrefixOf_self (l : List Char) : l.isPrefixOf l = true := by
  induction l with
  | nil => rfl
  | cons a as ih => simp [List.isPrefixOf, ih]

theorem list_drop_append (a b : List Char) : (a ++ b).drop a.length = b := by
  induction a with
  | nil => rfl
  | cons x xs ih => simp [ih]

theorem pyContains_append (pre m : String) : pyContains (pre ++ m) m = true := by
  have hdata : (pre ++ m).data = pre.data ++ m.data := by
    cases pre
    cases m
    rfl
  unfold pyContains
  rw [List.any_eq_true]
  refine ⟨pre.data.length, ?_, ?_⟩
  · rw [List.mem_range, hdata, List.length_append]
    omega
  · rw [hdata, list_drop_append]
    exact list_isPrefixOf_self m.data

/-- **C5 counterexample.** The claim says a non-validation failure surfaces a
generic message "with the failure detail retained only in logs"; line 433
re-raises `Exception(f"Error during search: {str(e)}")`, so the detail appears
in the user-visible message itself.  Concretely, an embedder failing with
detail `"embfail"` surfaces `"Error during search: embfail"`: a message that
contains the detail, not the bare generic text. -/
theorem error_detail_visible_counterexample :
    (perform_memory_search { use_search_method := false } { query := "q" }
        failingCollection failingEmbedder).1 =
      .error (.generic "Error during search: embfail") ∧
    pyContains "Error during search: embfail" "embfail" = true ∧
    "Error during search: embfail" ≠ "Error during search" :=
  ⟨rfl, by decide, by decide⟩

/-- **C5 amended.** Every failure escaping the search body goes through the
class dispatch of the handlers at lines 425-433: an exception that is not a
`ValueError` is re-raised as a generic failure whose user-visible message is
the generic "Error during search: " text with the failure detail appended —
so the detail appears in the user-visible message, not only in logs — while a
`ValueError`, whether the k-validation error or one raised by a collaborator
(the handler cannot distinguish the two), surfaces its specific message
unchanged; no partial response is returned, and the pipeline's own error
wrapping agrees with this dispatch on the exceptions it produces. -/
theorem error_wrapping_amended (settings : DeclarativeMemorySettings)
    (req : MemorySearchRequest) (c : Collection) (embedder : Embedder) :
    (∀ e : PyExc, e.isValueError = false →
      handleSearchError e = .generic ("Error during search: " ++ e.msg) ∧
      pyContains ("Error during search: " ++ e.msg) e.msg = true) ∧
    (∀ e : PyExc, e.isValueError = true → handleSearchError e = .validation e.msg) ∧
    (∀ m, (perform_memory_search_inner settings req c embedder).1 =
        .error (.pyError m) →
      (perform_memory_search settings req c embedder).1 =
        .error (handleSearchError { isValueError := false, msg := m })) ∧
    (∀ m, (perform_memory_search_inner settings req c embedder).1 =
        .error (.valueError m) →
      (perform_memory_search settings req c embedder).1 =
        .error (handleSearchError { isValueError := true, msg := m })) ∧
    (∀ resp, (perform_memory_search_inner settings req c embedder).1 = .ok resp →
      (perform_memory_search settings req c embedder).1 = .ok resp) ∧
    (∀ resp, (perform_memory_search settings req c embedder).1 = .ok resp →
      (perform_memory_search_inner settings req c embedder).1 = .ok resp) := by
  refine ⟨fun e he => ⟨?_, ?_⟩, fun e he => ?_, fun m h => ?_, fun m h => ?_,
    fun resp h => ?_, fun resp h => ?_⟩
  · unfold handleSearchError
    rw [if_neg (by simp [he])]
  · exact pyContains_append "Error during search: " e.msg
  · unfold handleSearchError
    rw [if_pos he]
  · simp [perform_memory_search, handleSearchError, h]
  · simp [perform_memory_search, handleSearchError, h]
  · simp [perform_memory_search, h]
  · cases hi : (perform_memory_search_inner settings req c embedder).1 with
    | ok resp' =>
      have houter : (perform_memory_search settings req c embedder).1 = .ok resp' := by
        simp [perform_memory_search, hi]
      rw [Except.ok.inj (houter.symm.trans h)]
    | error e =>
      cases e with
      | valueError m' =>
        have houter : (perform_memory_search settings req c embedder).1 =
            .error (.validation m') := by
          simp [perform_memory_search, hi]
        rw [houter] at h
        cases h
      | pyError m' =>
        have houter : (perform_memory_search settings req c embedder).1 =
            .error (.generic ("Error during search: " ++ m')) := by
          simp [perform_memory_search, hi]
        rw [houter] at h
        cases h

theorem error_wrapping_amended_witness :
    handleSearchError { isValueError := true, msg := "invalid literal" } =
      .validation "invalid literal" ∧
    (perform_memory_search { use_search_method := false } { query := "q" }
        failingCollection failingEmbedder).1 =
      .error (handleSearchError { isValueError := false, msg := "embfail" }) :=
  ⟨(error_wrapping_amended { use_search_method := false } { query := "q" }
      failingCollection failingEmbedder).2.1
    { isValueError := true, msg := "invalid literal" } rfl,
   (error_wrapping_amended { use_search_method := false } { query := "q" }
      failingCollection failingEmbedder).2.2.1 "embfail" rfl⟩
/-- **C2.** Strategy probing attempts capabilities in the fixed source order —
`search` with the native filter (only when the request has a truthy filter),
`search` without filter, `query`, `similarity_search` — where a raised error
or an absent capability moves to the next strategy, the returned tag names the
first strategy that succeeded, and the embedding-based
`recall_memories_from_embedding` fallback serves a collection exposing nothing
else; a collection whose `search` accepts the filter argument tags a filtered
request's response `search_with_filter`. -/
theorem prober_strategy_order (c : Collection) (req : MemorySearchRequest)
    (k : Nat) (threshold : Float) :
    (∀ s rs, c.search = some s → hasFilter req = true →
      s.callFiltered req.query k threshold (req.metadata_filter.getD []) = .ok rs →
      (try_search_method c req k threshold).1 = (some rs, "search_with_filter")) ∧
    (∀ s e rs, c.search = some s → hasFilter req = true →
      s.callFiltered req.query k threshold (req.metadata_filter.getD []) = .error e →
      e.isTypeError = true →
      s.callUnfiltered req.query k threshold = .ok rs →
      (try_search_method c req k threshold).1 = (some rs, "search")) ∧
    (∀ s rs, c.search = some s → hasFilter req = false →
      s.callUnfiltered req.query k threshold = .ok rs →
      (try_search_method c req k threshold).1 = (some rs, "search")) ∧
    (c.search = none →
      try_search_method c req k threshold = tryQueryMethod c req k threshold) ∧
    (∀ s e, c.search = some s → hasFilter req = true →
      s.callFiltered req.query k threshold (req.metadata_filter.getD []) = .error e →
      e.isTypeError = false →
      (try_search_method c req k threshold).1 = (tryQueryMethod c req k threshold).1) ∧
    (∀ s e e', c.search = some s → hasFilter req = true →
      s.callFiltered req.query k threshold (req.metadata_filter.getD []) = .error e →
      e.isTypeError = true →
      s.callUnfiltered req.query k threshold = .error e' →
      (try_search_method c req k threshold).1 = (tryQueryMethod c req k threshold).1) ∧
    (∀ s e, c.search = some s → hasFilter req = false →
      s.callUnfiltered req.query k threshold = .error e →
      (try_search_method c req k threshold).1 = (tryQueryMethod c req k threshold).1) ∧
    (∀ q rs, c.query = some q → q req.query k threshold = .ok rs →
      (tryQueryMethod c req k threshold).1 = (some rs, "query")) ∧
    (c.query = none → tryQueryMethod c req k threshold = trySimMethod c req k) ∧
    (∀ q e, c.query = some q → q req.query k threshold = .error e →
      (tryQueryMethod c req k threshold).1 = (trySimMethod c req k).1) ∧
    (∀ f rs, c.similarity_search = some f → f req.query k = .ok rs →
      (trySimMethod c req k).1 = (some rs, "similarity_search")) ∧
    (c.similarity_search = none →
      trySimMethod c req k = ((none, "no_high_level_method"), [])) ∧
    (∀ f e, c.similarity_search = some f → f req.query k = .error e →
      (trySimMethod c req k).1 = (none, "no_high_level_method")) ∧
    (∀ (settings : DeclarativeMemorySettings) (embedder : Embedder) emb rs,
      c.search = none → c.query = none → c.similarity_search = none →
      settings.use_search_method = true →
      req.k.getD settings.default_k ≤ settings.max_k →
      embedder req.query = .ok emb →
      c.recall_memories_from_embedding emb (req.k.getD settings.default_k)
        (req.threshold.getD settings.default_threshold) = .ok rs →
      ∃ resp, (perform_memory_search settings req c embedder).1 = .ok resp ∧
        resp.search_method = "recall_memories_from_embedding") ∧
    (∀ (settings : DeclarativeMemorySettings) (embedder : Embedder) s rs,
      settings.use_search_method = true →
      req.k.getD settings.default_k ≤ settings.max_k →
      c.search = some s → hasFilter req = true →
      s.callFiltered req.query (req.k.getD settings.default_k)
        (req.threshold.getD settings.default_threshold)
        (req.metadata_filter.getD []) = .ok rs →
      ∃ resp, (perform_memory_search settings req c embedder).1 = .ok resp ∧
        resp.search_method = "search_with_filter") := by
  refine ⟨fun s rs hs hf hok => ?_, fun s e rs hs hf herr hte hok => ?_,
    fun s rs hs hf hok => ?_, fun hs => ?_, fun s e hs hf herr hte => ?_,
    fun s e e' hs hf herr hte herr' => ?_, fun s e hs hf herr => ?_,
    fun q rs hq hok => ?_, fun hq => ?_, fun q e hq herr => ?_,
    fun f rs hf' hok => ?_, fun hf' => ?_, fun f e hf' herr => ?_,
    fun settings embedder emb rs h1 h2 h3 hu hk hemb hrec => ?_,
    fun settings embedder s rs hu hk hs hf hok => ?_⟩
  · simp [try_search_method, hs, hf, hok]
  · simp [try_search_method, hs, hf, herr, hte, hok]
  · simp [try_search_method, hs, hf, hok]
  · simp [try_search_method, hs]
  · simp [try_search_method, hs, hf, herr, hte]
  · simp [try_search_method, hs, hf, herr, hte, herr']
  · simp [try_search_method, hs, hf, herr]
  · simp [tryQueryMethod, hq, hok]
  · simp [tryQueryMethod, hq]
  · simp [tryQueryMethod, hq, herr]
  · simp [trySimMethod, hf', hok]
  · simp [trySimMethod, hf']
  · simp [trySimMethod, hf', herr]
  · refine ⟨buildResponse settings req "recall_memories_from_embedding" rs
      (some emb.length), ?_, rfl⟩
    simp [perform_memory_search, perform_memory_search_inner, Nat.not_lt.mpr hk, hu,
      try_search_method, tryQueryMethod, trySimMethod, h1, h2, h3, hemb, hrec]
  · cases hT : embedder "test" with
    | ok sample =>
      refine ⟨buildResponse settings req "search_with_filter" rs (some sample.length), ?_, rfl⟩
      simp [perform_memory_search, perform_memory_search_inner, Nat.not_lt.mpr hk, hu,
        try_search_method, hs, hf, hok, hT]
    | error e =>
      refine ⟨buildResponse settings req "search_with_filter" rs none, ?_, rfl⟩
      simp [perform_memory_search, perform_memory_search_inner, Nat.not_lt.mpr hk, hu,
        try_search_method, hs, hf, hok, hT]

theorem prober_strategy_order_witness :
    (try_search_method filteredSearchCollection
      { query := "q", metadata_filter := some [("source", Value.vStr "doc.pdf")] }
      5 0.7).1 =
      (some [{ selfDoc := { strForm := "f" } }], "search_with_filter") :=
  (prober_strategy_order filteredSearchCollection
    { query := "q", metadata_filter := some [("source", Value.vStr "doc.pdf")] }
    5 0.7).1 _ _ rfl rfl rfl

theorem trySim_trace_events (c : Collection) (req : MemorySearchRequest) (k : Nat) :
    CallEvent.embedFallbackCall ∉ (trySimMethod c req k).2 ∧
    CallEvent.recallCall ∉ (trySimMethod c req k).2 := by
  unfold trySimMethod
  split
  · split <;> simp
  · simp

theorem tryQuery_trace_events (c : Collection) (req : MemorySearchRequest)
    (k : Nat) (threshold : Float) :
    CallEvent.embedFallbackCall ∉ (tryQueryMethod c req k threshold).2 ∧
    CallEvent.recallCall ∉ (tryQueryMethod c req k threshold).2 := by
  have h := trySim_trace_events c req k
  unfold tryQueryMethod
  split
  · split
    · simp
    · exact ⟨by simp [h.1], by simp [h.2]⟩
  · exact h

theorem try_search_trace_events (c : Collection) (req : MemorySearchRequest)
    (k : Nat) (threshold : Float) :
    CallEvent.embedFallbackCall ∉ (try_search_method c req k threshold).2 ∧
    CallEvent.recallCall ∉ (try_search_method c req k threshold).2 := by
  have h := tryQuery_trace_events c req k threshold
  unfold try_search_method
  split
  · split
    · split
      · simp
      · split
        · split
          · simp
          · exact ⟨by simp [h.1], by simp [h.2]⟩
        · exact ⟨by simp [h.1], by simp [h.2]⟩
    · split
      · simp
      · exact ⟨by simp [h.1], by simp [h.2]⟩
  · exact h

/-- **C10.** When probing is enabled and a high-level strategy succeeds — even
with an empty result list — the embedding fallback does not run (no fallback
embedder call, no recall call) and the response keeps that strategy's tag and
result set; the fallback's embedder call happens exactly when validation
passed and the probe produced no result (probing disabled, or every
high-level capability absent or failing). -/
theorem empty_result_no_fallback (settings : DeclarativeMemorySettings)
    (req : MemorySearchRequest) (c : Collection) (embedder : Embedder) :
    (settings.use_search_method = true →
      req.k.getD settings.default_k ≤ settings.max_k →
      ∀ rs tag,
        (try_search_method c req (req.k.getD settings.default_k)
          (req.threshold.getD settings.default_threshold)).1 = (some rs, tag) →
        (∃ resp, (perform_memory_search settings req c embedder).1 = .ok resp ∧
          resp.search_method = tag ∧
          resp.results = buildResults settings req tag rs) ∧
        CallEvent.embedFallbackCall ∉ (perform_memory_search settings req c embedder).2 ∧
        CallEvent.recallCall ∉ (perform_memory_search settings req c embedder).2) ∧
    (CallEvent.embedFallbackCall ∈ (perform_memory_search settings req c embedder).2 ↔
      (req.k.getD settings.default_k ≤ settings.max_k ∧
        (settings.use_search_method = false ∨
          (try_search_method c req (req.k.getD settings.default_k)
            (req.threshold.getD settings.default_threshold)).1.1 = none))) := by
  have ht := try_search_trace_events c req (req.k.getD settings.default_k)
    (req.threshold.getD settings.default_threshold)
  constructor
  · intro hu hk rs tag hp
    rcases hpq : try_search_method c req (req.k.getD settings.default_k)
      (req.threshold.getD settings.default_threshold) with ⟨⟨o, tag'⟩, tr⟩
    rw [hpq] at ht hp
    simp only [Prod.mk.injEq] at hp
    obtain ⟨rfl, rfl⟩ := hp
    cases hT : embedder "test" with
    | ok sample =>
      refine ⟨⟨buildResponse settings req tag' rs (some sample.length), ?_, rfl, rfl⟩, ?_, ?_⟩
      · simp [perform_memory_search, perform_memory_search_inner, Nat.not_lt.mpr hk,
          hu, hpq, hT]
      · simp [perform_memory_search, perform_memory_search_inner, Nat.not_lt.mpr hk,
          hu, hpq, hT, ht.1]
      · simp [perform_memory_search, perform_memory_search_inner, Nat.not_lt.mpr hk,
          hu, hpq, hT, ht.2]
    | error e =>
      refine ⟨⟨buildResponse settings req tag' rs none, ?_, rfl, rfl⟩, ?_, ?_⟩
      · simp [perform_memory_search, perform_memory_search_inner, Nat.not_lt.mpr hk,
          hu, hpq, hT]
      · simp [perform_memory_search, perform_memory_search_inner, Nat.not_lt.mpr hk,
          hu, hpq, hT, ht.1]
      · simp [perform_memory_search, perform_memory_search_inner, Nat.not_lt.mpr hk,
          hu, hpq, hT, ht.2]
  · by_cases hk : settings.max_k < req.k.getD settings.default_k
    · simp [perform_memory_search, perform_memory_search_inner, hk, Nat.not_le.mpr hk]
    · have hk' : req.k.getD settings.default_k ≤ settings.max_k := Nat.not_lt.mp hk
      by_cases hu : settings.use_search_method = true
      · rcases hpq : try_search_method c req (req.k.getD settings.default_k)
          (req.threshold.getD settings.default_threshold) with ⟨⟨o, tag⟩, tr⟩
        rw [hpq] at ht
        cases o with
        | some rs =>
          cases hT : embedder "test" with
          | ok sample =>
            simp [perform_memory_search, perform_memory_search_inner, hk, hu, hpq, hT,
              ht.1, hpq]
          | error e =>
            simp [perform_memory_search, perform_memory_search_inner, hk, hu, hpq, hT,
              ht.1, hpq]
        | none =>
          cases hE : embedder req.query with
          | ok emb =>
            cases hR : c.recall_memories_from_embedding emb (req.k.getD settings.default_k)
                (req.threshold.getD settings.default_threshold) with
            | ok rs =>
              simp [perform_memory_search, perform_memory_search_inner, hk, hu, hpq,
                hE, hR, hk']
            | error e =>
              simp [perform_memory_search, perform_memory_search_inner, hk, hu, hpq,
                hE, hR, hk']
          | error e =>
            simp [perform_memory_search, perform_memory_search_inner, hk, hu, hpq,
              hE, hk']
      · have hu' : settings.use_search_method = false := Bool.not_eq_true _ ▸ hu
        cases hE : embedder req.query with
        | ok emb =>
          cases hR : c.recall_memories_from_embedding emb (req.k.getD settings.default_k)
              (req.threshold.getD settings.default_threshold) with
          | ok rs =>
            simp [perform_memory_search, perform_memory_search_inner, hk, hu', hE, hR, hk']
          | error e =>
            simp [perform_memory_search, perform_memory_search_inner, hk, hu', hE, hR, hk']
        | error e =>
          simp [perform_memory_search, perform_memory_search_inner, hk, hu', hE, hk']

theorem empty_result_no_fallback_witness :
    (∃ resp, (perform_memory_search {} { query := "q" } emptySearchCollection
        okEmbedder).1 = .ok resp ∧
      resp.search_method = "search" ∧
      resp.results = buildResults {} { query := "q" } "search" []) ∧
    CallEvent.embedFallbackCall ∉
      (perform_memory_search {} { query := "q" } emptySearchCollection okEmbedder).2 ∧
    CallEvent.recallCall ∉
      (perform_memory_search {} { query := "q" } emptySearchCollection okEmbedder).2 :=
  (empty_result_no_fallback {} { query := "q" } emptySearchCollection okEmbedder).1
    rfl (by decide) [] "search" rfl

end MemRetriever
